import Mathlib

/-!
Shallow embedding of `src/dadaC.py`, the Python ctypes binding of the dadaC
density-peak clustering library.  The binding object `Data` is modelled as a
record `DataM`; each Python method becomes a pure function
`DataM → DataM × Option PyErr` (or, for getters, `DataM × Except PyErr α`)
that performs exactly the field writes the Python method performs, in the same
order relative to the `raise` statements.

The C library `bin/libdadac.so` is not part of the repository sources under
`src/`; its entry points (`NgbhSearch`, `idEstimate`, `computeRho`,
`computeCorrection`, `Heuristic1..3`, `Clusters_allocate`) are modelled from
the spec as pure functions collected in an `Engine` record.  The field sets
each modelled stage reads and writes follow the spec text (section 4 of the
design): neighbor search writes neighbor heaps; `computeRho` writes
`log_rho`, `log_rho_err`, `kstar` from the heaps and the id estimate;
`computeCorrection` writes `log_rho_c` and `g` from the density fields and `Z`;
Heuristic1 writes `cluster_idx` and `is_center` from the corrected densities;
Heuristic2 builds borders; Heuristic3 rewrites `cluster_idx`.

Scalar values are rationals; the C doubles in question are produced by exact
arithmetic in the parts we evaluate.  Squared Euclidean distances are stored
in the heaps (spec section 2); the Python getter exposes them through
`** 0.5`, which is reflected in the theorems by `Real.sqrt` applied to the
stored value.
-/

namespace DadaC

/-- Mirror of the ctypes `HeapNode` structure: a stored (squared) distance and
the index of the corresponding point. -/
structure HeapNodeM where
  value : ℚ
  array_idx : ℕ
deriving DecidableEq, Inhabited

/-- Mirror of the ctypes `DatapointInfo` structure. -/
structure DatapointInfoM where
  g : ℚ
  ngbh : List HeapNodeM
  array_idx : ℕ
  log_rho : ℚ
  log_rho_c : ℚ
  log_rho_err : ℚ
  kstar : ℕ
  is_center : Bool
  cluster_idx : ℤ
deriving DecidableEq, Inhabited

/-- Minimal mirror of the ctypes `Clusters` structure: the sparse/dense flag
plus an abstract border payload. -/
structure ClustersM where
  useSparseBorders : Bool
  borders : List (ℕ × ℕ × ℕ × ℚ × ℚ)
deriving DecidableEq, Inhabited

/-- Fields of a datapoint produced by the neighbor-search and density stages;
per the spec these are read, never written, by the clustering heuristics. -/
structure DpDensityView where
  ngbh : List HeapNodeM
  array_idx : ℕ
  log_rho : ℚ
  log_rho_err : ℚ
  kstar : ℕ
deriving DecidableEq, Inhabited

/-- Fields readable by Heuristic1: the density view plus the fields written by
`computeCorrection` (`log_rho_c` and `g`); per the spec H1 produces the initial
cluster ids, so it does not read `cluster_idx` or `is_center`. -/
structure DpCorrView where
  ngbh : List HeapNodeM
  array_idx : ℕ
  log_rho : ℚ
  log_rho_c : ℚ
  log_rho_err : ℚ
  kstar : ℕ
  g : ℚ
deriving DecidableEq, Inhabited

def densityView (p : DatapointInfoM) : DpDensityView :=
  ⟨p.ngbh, p.array_idx, p.log_rho, p.log_rho_err, p.kstar⟩

def corrView (p : DatapointInfoM) : DpCorrView :=
  ⟨p.ngbh, p.array_idx, p.log_rho, p.log_rho_c, p.log_rho_err, p.kstar, p.g⟩

/-- Modelled from the spec: the C entry points of `libdadac.so`, which are not
under `src/`.  Each is a pure function; the argument types encode which fields
of the datapoint array the routine may read (per spec section 4). -/
structure Engine where
  ngbhSearch : List (List ℚ) → ℕ → ℕ → ℕ → (ℕ → DatapointInfoM)
  idEstimate : (ℕ → DatapointInfoM) → ℕ → ℚ
  rhoPoint : List HeapNodeM → ℕ → ℚ → ℚ × ℚ × ℕ
  corrPoint : DpDensityView → ℚ → ℚ × ℚ
  h1Point : (ℕ → DpCorrView) → List (List ℚ) → ℕ → ℕ → ℤ × Bool
  h1Clusters : (ℕ → DpCorrView) → List (List ℚ) → ℕ → ClustersM
  h2Clusters : (ℕ → DatapointInfoM) → ℕ → ClustersM → ClustersM
  h3Point : (ℕ → DatapointInfoM) → ℕ → ClustersM → ℚ → Bool → ℕ → ℤ
  h3Clusters : (ℕ → DatapointInfoM) → ℕ → ClustersM → ℚ → Bool → ClustersM

/-- Modelled from the spec: `computeRho` writes `log_rho`, `log_rho_err` and
`kstar` of every point from its own neighbor heap and the global id estimate
(per-point work is independent, spec section 5). -/
def computeRhoM (e : Engine) (dp : ℕ → DatapointInfoM) (idv : ℚ) : ℕ → DatapointInfoM :=
  fun i =>
    let p := dp i
    let r := e.rhoPoint p.ngbh p.array_idx idv
    { p with log_rho := r.1, log_rho_err := r.2.1, kstar := r.2.2 }

/-- Modelled from the spec: `computeCorrection` writes `log_rho_c` (and the
auxiliary `g`) of every point from its density fields and `Z`. -/
def computeCorrectionM (e : Engine) (dp : ℕ → DatapointInfoM) (Z : ℚ) : ℕ → DatapointInfoM :=
  fun i =>
    let p := dp i
    let r := e.corrPoint (densityView p) Z
    { p with log_rho_c := r.1, g := r.2 }

/-- Modelled from the spec: `Heuristic1` writes `cluster_idx` and `is_center`
of every point from the corrected densities, and returns the `Clusters`
structure holding the peak list. -/
def h1M (e : Engine) (dp : ℕ → DatapointInfoM) (rows : List (List ℚ)) (n : ℕ) :
    (ℕ → DatapointInfoM) × ClustersM :=
  (fun i =>
    let p := dp i
    let a := e.h1Point (fun j => corrView (dp j)) rows n i
    { p with cluster_idx := a.1, is_center := a.2 },
   e.h1Clusters (fun j => corrView (dp j)) rows n)

/-- Modelled from the spec: `Clusters_allocate` installs the border storage in
the representation selected by the sparse flag passed by the binding. -/
def clustersAllocate (c : ClustersM) (sparse : Bool) : ClustersM :=
  { c with useSparseBorders := sparse }

/-- Modelled from the spec: `Heuristic3` relabels every point's `cluster_idx`
after the statistical merge and the optional halo pass. -/
def h3M (e : Engine) (dp : ℕ → DatapointInfoM) (n : ℕ) (c : ClustersM) (Z : ℚ)
    (halo : Bool) : ℕ → DatapointInfoM :=
  fun i => { dp i with cluster_idx := e.h3Point dp n c Z halo i }

/-- The Python-level error: all failures in `dadaC.py` are `ValueError`s
carrying a message. -/
inductive PyErr where
  | valueError (msg : String)
deriving DecidableEq

/-- Model of the module-level ctypes float type choice. -/
inductive CFloatT where
  | c_float
  | c_double
deriving DecidableEq

/-- Model of the module-level ctypes index type choice. -/
inductive CIdxT where
  | c_uint32
  | c_uint64
deriving DecidableEq

/-- The module globals `ctFloatType` and `ctIdxType` of `dadaC.py`, mutated by
`Data.__init__` through the `global` declaration. -/
structure Globals where
  ctFloatType : CFloatT
  ctIdxType : CIdxT
deriving DecidableEq

/-- The globals as initialised at module import: `ct.c_double`, `ct.c_uint64`. -/
def initialGlobals : Globals := ⟨CFloatT.c_double, CIdxT.c_uint64⟩

/-- Model of the Python `Data` object: its public and private fields, the
`state` dictionary flattened into individual fields, and the argtype choices
recorded when the ctypes function pointers were configured. -/
structure DataM where
  data : List (List ℚ)
  n : ℕ
  dims : ℕ
  useFloat32 : Bool
  useInt32 : Bool
  dtypeFloat : CFloatT
  argFloat : CFloatT
  argIdx : CIdxT
  k : Option ℕ
  id : Option ℚ
  zval : Option ℚ
  datapoints : Option (ℕ → DatapointInfoM)
  clusters : Option ClustersM
  stateNgbh : Bool
  stateId : Bool
  stateDensity : Bool
  stateClustering : Bool
  stateUseSparse : Option Bool
  stateComputeHalo : Option Bool
  clusterAssignment : Option (List ℤ)
  neighbors : Option (List (List ℕ) × List (List ℚ))
  density : Option (List ℚ)
  densityError : Option (List ℚ)

/-- Translation of `Data.__init__` on a well-formed 2d array: reads the
library's size code `s`, derives the per-instance flags
(`useFloat32 = s < 1`, `useInt32 = (s == 0) or (s == 2)`), conditionally
overwrites the module globals, converts the data, and records the globals in
force when the ctypes argtypes were bound. -/
def mkData (g : Globals) (s : ℤ) (rows : List (List ℚ)) (dims : ℕ) : Globals × DataM :=
  let useF32 : Bool := decide (s < 1)
  let useI32 : Bool := (s == 0) || (s == 2)
  let g1 : Globals :=
    ⟨if useF32 then CFloatT.c_float else g.ctFloatType,
     if useI32 then CIdxT.c_uint32 else g.ctIdxType⟩
  (g1,
   { data := rows
     n := rows.length
     dims := dims
     useFloat32 := useF32
     useInt32 := useI32
     dtypeFloat := if useF32 then CFloatT.c_float else CFloatT.c_double
     argFloat := g1.ctFloatType
     argIdx := g1.ctIdxType
     k := none
     id := none
     zval := none
     datapoints := none
     clusters := none
     stateNgbh := false
     stateId := false
     stateDensity := false
     stateClustering := false
     stateUseSparse := none
     stateComputeHalo := none
     clusterAssignment := none
     neighbors := none
     density := none
     densityError := none })

/-- Junk value standing for a dereference of a `None` datapoints pointer. -/
def noDatapoints : ℕ → DatapointInfoM := fun _ => default

/-- Translation of `Data.computeNeighbors` (lines 173-183): stores `k`, runs
the C neighbor search, sets the `ngbh` state flag and clears the neighbor
cache.  The Python method performs no validation of `k`. -/
def computeNeighbors (e : Engine) (st : DataM) (kArg : ℕ) : DataM × Option PyErr :=
  let st1 := { st with k := some kArg }
  let dp := e.ngbhSearch st1.data st1.n st1.dims kArg
  ({ st1 with datapoints := some dp, stateNgbh := true, neighbors := none }, none)

/-- Translation of `Data.computeIDtwoNN` (lines 185-197): raises if neighbors
have not been computed, otherwise stores the id estimate and sets the flag. -/
def computeIDtwoNN (e : Engine) (st : DataM) : DataM × Option PyErr :=
  if !st.stateNgbh then
    (st, some (PyErr.valueError "Please compute Neighbors before calling this function"))
  else
    ({ st with id := some (e.idEstimate (st.datapoints.getD noDatapoints) st.n),
               stateId := true }, none)

/-- Translation of `Data.computeDensity` (lines 199-211): raises if the id has
not been computed, otherwise runs `computeRho`, sets the flag and clears the
density caches. -/
def computeDensity (e : Engine) (st : DataM) : DataM × Option PyErr :=
  if !st.stateId then
    (st, some (PyErr.valueError "Please compute ID before calling this function"))
  else
    let dp := computeRhoM e (st.datapoints.getD noDatapoints) (st.id.getD 0)
    ({ st with datapoints := some dp, stateDensity := true,
               density := none, densityError := none }, none)

/-- The sparse-storage selection of `computeClusteringADP` (lines 226-234):
`"auto"` switches on `n > 2e6`, the literal `"y"` selects sparse, and every
other string selects dense. -/
def chooseSparse (useSparse : String) (n : ℕ) : Bool :=
  if useSparse = "auto" then decide (n > 2000000)
  else if useSparse = "y" then true
  else false

/-- The datapoint array after `computeCorrection` and `Heuristic1`. -/
def adpDp2 (e : Engine) (dp : ℕ → DatapointInfoM) (rows : List (List ℚ)) (n : ℕ)
    (Z : ℚ) : ℕ → DatapointInfoM :=
  (h1M e (computeCorrectionM e dp Z) rows n).1

/-- The `Clusters` value after allocation and `Heuristic2`. -/
def adpCl (e : Engine) (dp : ℕ → DatapointInfoM) (rows : List (List ℚ)) (n : ℕ)
    (Z : ℚ) (sparse : Bool) : ClustersM :=
  e.h2Clusters (adpDp2 e dp rows n Z) n
    (clustersAllocate (h1M e (computeCorrectionM e dp Z) rows n).2 sparse)

/-- The datapoint array at the end of `computeClusteringADP`. -/
def adpDp3 (e : Engine) (dp : ℕ → DatapointInfoM) (rows : List (List ℚ)) (n : ℕ)
    (Z : ℚ) (halo : Bool) (sparse : Bool) : ℕ → DatapointInfoM :=
  h3M e (adpDp2 e dp rows n Z) n (adpCl e dp rows n Z sparse) Z halo

/-- The `Clusters` value at the end of `computeClusteringADP`. -/
def adpClFinal (e : Engine) (dp : ℕ → DatapointInfoM) (rows : List (List ℚ)) (n : ℕ)
    (Z : ℚ) (halo : Bool) (sparse : Bool) : ClustersM :=
  e.h3Clusters (adpDp2 e dp rows n Z) n (adpCl e dp rows n Z sparse) Z halo

/-- Translation of `Data.computeClusteringADP` (lines 213-244): raises if the
density has not been computed; otherwise selects the border representation,
records the halo flag and `Z`, runs correction and the three heuristics, sets
the clustering flag and clears the assignment cache.  The Python method
performs no validation of `Z`. -/
def computeClusteringADP (e : Engine) (st : DataM) (Z : ℚ) (halo : Bool)
    (useSparse : String) : DataM × Option PyErr :=
  if !st.stateDensity then
    (st, some (PyErr.valueError "Please compute density before calling this function"))
  else
    let sparse := chooseSparse useSparse st.n
    let dp0 := st.datapoints.getD noDatapoints
    ({ st with stateUseSparse := some sparse
               stateComputeHalo := some halo
               zval := some Z
               datapoints := some (adpDp3 e dp0 st.data st.n Z halo sparse)
               clusters := some (adpClFinal e dp0 st.data st.n Z halo sparse)
               stateClustering := true
               clusterAssignment := none }, none)

/-- Translation of `Data.getClusterAssignment` (lines 246-265). -/
def getClusterAssignment (st : DataM) : DataM × Except PyErr (List ℤ) :=
  match st.clusterAssignment with
  | some v => (st, Except.ok v)
  | none =>
    if st.stateClustering then
      let v := (List.range st.n).map fun j => ((st.datapoints.getD noDatapoints) j).cluster_idx
      ({ st with clusterAssignment := some v }, Except.ok v)
    else
      (st, Except.error (PyErr.valueError "Clustering is not computed yet"))

/-- Translation of `Data.getDensity` (lines 270-288). -/
def getDensity (st : DataM) : DataM × Except PyErr (List ℚ) :=
  match st.density with
  | some v => (st, Except.ok v)
  | none =>
    if st.stateDensity then
      let v := (List.range st.n).map fun j => ((st.datapoints.getD noDatapoints) j).log_rho
      ({ st with density := some v }, Except.ok v)
    else
      (st, Except.error (PyErr.valueError "Density is not computed yet"))

/-- Translation of `Data.getDensityError` (lines 290-307). -/
def getDensityError (st : DataM) : DataM × Except PyErr (List ℚ) :=
  match st.densityError with
  | some v => (st, Except.ok v)
  | none =>
    if st.stateDensity then
      let v := (List.range st.n).map fun j => ((st.datapoints.getD noDatapoints) j).log_rho_err
      ({ st with densityError := some v }, Except.ok v)
    else
      (st, Except.error (PyErr.valueError "Density Error is not computed yet"))

/-- Translation of `Data.getNeighbors` (lines 309-328): for each point it
reads the heap entries at ranks `0 .. k-1` (the Python loop is
`range(self.k)`), exposing the neighbor index and the stored value; the
Python code applies `** 0.5` to the stored value, which is reflected in the
theorems by `Real.sqrt` of the value recorded here.  The failure branch
raises with the message found in the source. -/
def getNeighbors (st : DataM) : DataM × Except PyErr (List (List ℕ) × List (List ℚ)) :=
  match st.neighbors with
  | some v => (st, Except.ok v)
  | none =>
    if st.stateNgbh then
      let kv := st.k.getD 0
      let dp := st.datapoints.getD noDatapoints
      let idxs := (List.range st.n).map fun j =>
        (List.range kv).map fun kk => ((dp j).ngbh.getD kk default).array_idx
      let vals := (List.range st.n).map fun j =>
        (List.range kv).map fun kk => ((dp j).ngbh.getD kk default).value
      ({ st with neighbors := some (idxs, vals) }, Except.ok (idxs, vals))
    else
      (st, Except.error (PyErr.valueError "Density is not computed yet"))

/-- Squared Euclidean distance between two coordinate rows. -/
def sqDist (x y : List ℚ) : ℚ :=
  ((x.zip y).map fun p => (p.1 - p.2) * (p.1 - p.2)).sum

/-- Candidate (squared distance, index) pairs for point `i`: every other
point, sorted ascending by distance with ties broken by lower index (the
deterministic tie-break required by spec section 4.1). -/
def candList (rows : List (List ℚ)) (i : ℕ) : List (ℚ × ℕ) :=
  (((List.range rows.length).filter fun j => j ≠ i).map
      fun j => (sqDist (rows.getD i []) (rows.getD j []), j)).insertionSort
    fun a b => a.1 < b.1 ∨ (a.1 = b.1 ∧ a.2 ≤ b.2)

/-- Modelled from the spec: the neighbor list `NgbhSearch` stores for point
`i` — the self entry (distance 0) at rank 0 followed by the `k` nearest other
points ascending by squared distance (spec sections 3 and 4.2: a
`k+1`-length list). -/
def specNgbhHeap (rows : List (List ℚ)) (kArg : ℕ) (i : ℕ) : List HeapNodeM :=
  ⟨0, i⟩ :: ((candList rows i).take kArg).map fun p => ⟨p.1, p.2⟩

/-- Modelled from the spec: `NgbhSearch` fills a fresh datapoint array whose
only populated fields are the neighbor heap and the point's own index. -/
def specNgbhSearch (rows : List (List ℚ)) (n : ℕ) (dims : ℕ) (kArg : ℕ) :
    ℕ → DatapointInfoM :=
  fun i => { (default : DatapointInfoM) with ngbh := specNgbhHeap rows kArg i, array_idx := i }

/-- A concrete engine instantiation used to evaluate the binding on explicit
inputs; the neighbor search is the spec-modelled one, the numeric stages are
simple total functions. -/
def cEngine : Engine where
  ngbhSearch := specNgbhSearch
  idEstimate := fun _ _ => 2
  rhoPoint := fun _ _ _ => (1, 1, 1)
  corrPoint := fun v Z => (v.log_rho - Z * v.log_rho_err, v.log_rho)
  h1Point := fun _ _ _ i => ((i : ℤ), true)
  h1Clusters := fun _ _ _ => ⟨false, []⟩
  h2Clusters := fun _ _ c => c
  h3Point := fun dp _ _ _ _ i => (dp i).cluster_idx
  h3Clusters := fun _ _ c _ _ => c

/-- Three concrete collinear points used as an explicit input. -/
def rows3 : List (List ℚ) := [[0, 0], [1, 0], [3, 0]]

/-- A freshly constructed `Data` object over `rows3` (64-bit library build,
`s = 1`). -/
def st3 : DataM := (mkData initialGlobals 1 rows3 2).2

/-- The state after `computeNeighbors(k = 2)` on `st3`. -/
def st3n : DataM := (computeNeighbors cEngine st3 2).1

/-- The state after the full pipeline prefix
`computeNeighbors(2); computeIDtwoNN(); computeDensity()` on `st3`. -/
def st3d : DataM := (computeDensity cEngine (computeIDtwoNN cEngine st3n).1).1

/-- The numeric-precision and index-width configuration recorded on an
instance: the two per-instance flags, the dtype the data was converted to,
and the ctypes float/index types in force when the argtypes were bound. -/
def typesOf (st : DataM) : Bool × Bool × CFloatT × CFloatT × CIdxT :=
  (st.useFloat32, st.useInt32, st.dtypeFloat, st.argFloat, st.argIdx)

/-- C1 (counterexample): with density computed on a concrete three-point
dataset, `computeClusteringADP` called with the invalid value `Z = -1` does
not fail with any error — in particular not with an `InvalidZ` error — and it
mutates the clustering state: the `clustering` flag is set and `Z = -1` is
stored.  The invalid `Z` is silently accepted, contradicting the claim. -/
theorem C1_counterexample :
    (computeClusteringADP cEngine st3d (-1) true "auto").2 = none ∧
    (computeClusteringADP cEngine st3d (-1) true "auto").1.stateClustering = true ∧
    (computeClusteringADP cEngine st3d (-1) true "auto").1.zval = some (-1) := by
  refine ⟨rfl, rfl, rfl⟩

/-- C1 (amended): `computeClusteringADP` validates only the density
prerequisite; for every `Z` — including every `Z ≤ 0` — the call raises no
error, stores `Z`, and sets the clustering flag.  No `InvalidZ` check exists
in the code. -/
theorem C1_amended (e : Engine) (st : DataM) (Z : ℚ) (halo : Bool) (us : String)
    (h : st.stateDensity = true) :
    (computeClusteringADP e st Z halo us).2 = none ∧
    (computeClusteringADP e st Z halo us).1.stateClustering = true ∧
    (computeClusteringADP e st Z halo us).1.zval = some Z := by
  simp [computeClusteringADP, h]

/-- C1 (witness): the amended statement instantiated at the concrete
density-ready state and `Z = -1`. -/
theorem C1_witness :
    st3d.stateDensity = true ∧
    ((computeClusteringADP cEngine st3d (-1) true "no").2 = none ∧
     (computeClusteringADP cEngine st3d (-1) true "no").1.stateClustering = true ∧
     (computeClusteringADP cEngine st3d (-1) true "no").1.zval = some (-1)) :=
  ⟨by decide, C1_amended cEngine st3d (-1) true "no" (by decide)⟩

/-- C2 (counterexample): on a concrete three-point dataset, `computeNeighbors`
called with `k = 0 < 1` and with `k = 5 ≥ n = 3` raises no error — in
particular no `InvalidNeighborCount` error — and mutates state in both cases
(`k` stored, `ngbh` flag set), contradicting the claim. -/
theorem C2_counterexample :
    (computeNeighbors cEngine st3 0).2 = none ∧
    (computeNeighbors cEngine st3 0).1.k = some 0 ∧
    (computeNeighbors cEngine st3 0).1.stateNgbh = true ∧
    (computeNeighbors cEngine st3 5).2 = none ∧
    (computeNeighbors cEngine st3 5).1.stateNgbh = true := by
  refine ⟨rfl, rfl, rfl, rfl, rfl⟩

/-- C2 (amended): `computeNeighbors` performs no validation of `k` at all:
for every state and every `k` it succeeds, stores `k`, installs the search
result, sets the `ngbh` flag and clears the neighbor cache. -/
theorem C2_amended (e : Engine) (st : DataM) (kArg : ℕ) :
    (computeNeighbors e st kArg).2 = none ∧
    (computeNeighbors e st kArg).1.k = some kArg ∧
    (computeNeighbors e st kArg).1.stateNgbh = true ∧
    (computeNeighbors e st kArg).1.neighbors = none ∧
    (computeNeighbors e st kArg).1.datapoints =
      some (e.ngbhSearch st.data st.n st.dims kArg) := by
  refine ⟨rfl, rfl, rfl, rfl, rfl⟩

/-- C3: each pipeline stage raises exactly when its prerequisite flag is
unset, with the distinct message found in the source, and proceeds (raising
nothing, setting its own completion flag) when the prerequisite holds. -/
theorem C3_prerequisites (e : Engine) (st : DataM) :
    (st.stateNgbh = false →
      (computeIDtwoNN e st).2 =
        some (PyErr.valueError "Please compute Neighbors before calling this function")) ∧
    (st.stateNgbh = true →
      (computeIDtwoNN e st).2 = none ∧ (computeIDtwoNN e st).1.stateId = true) ∧
    (st.stateId = false →
      (computeDensity e st).2 =
        some (PyErr.valueError "Please compute ID before calling this function")) ∧
    (st.stateId = true →
      (computeDensity e st).2 = none ∧ (computeDensity e st).1.stateDensity = true) ∧
    (st.stateDensity = false → ∀ (Z : ℚ) (halo : Bool) (us : String),
      (computeClusteringADP e st Z halo us).2 =
        some (PyErr.valueError "Please compute density before calling this function")) ∧
    (st.stateDensity = true → ∀ (Z : ℚ) (halo : Bool) (us : String),
      (computeClusteringADP e st Z halo us).2 = none ∧
      (computeClusteringADP e st Z halo us).1.stateClustering = true) := by
  refine ⟨fun h => ?_, fun h => ?_, fun h => ?_, fun h => ?_,
          fun h Z halo us => ?_, fun h Z halo us => ?_⟩ <;>
    simp [computeIDtwoNN, computeDensity, computeClusteringADP, h]

/-- C3 (witness): the prerequisite behaviour instantiated on concrete states —
the fresh object `st3` (nothing computed), the post-neighbor state `st3n` and
the post-density state `st3d`. -/
theorem C3_witness :
    st3.stateNgbh = false ∧
    (computeIDtwoNN cEngine st3).2 =
      some (PyErr.valueError "Please compute Neighbors before calling this function") ∧
    (computeDensity cEngine st3).2 =
      some (PyErr.valueError "Please compute ID before calling this function") ∧
    (computeClusteringADP cEngine st3 1 true "auto").2 =
      some (PyErr.valueError "Please compute density before calling this function") ∧
    (computeIDtwoNN cEngine st3n).2 = none ∧
    (computeClusteringADP cEngine st3d 1 true "auto").2 = none :=
  ⟨by decide,
   (C3_prerequisites cEngine st3).1 (by decide),
   (C3_prerequisites cEngine st3).2.2.1 (by decide),
   (C3_prerequisites cEngine st3).2.2.2.2.1 (by decide) 1 true "auto",
   ((C3_prerequisites cEngine st3n).2.1 (by decide)).1,
   ((C3_prerequisites cEngine st3d).2.2.2.2.2 (by decide) 1 true "auto").1⟩

/-- C5: on a concrete density-ready state with `n = 3`, passing the
documented sparse request `"yes"` selects DENSE storage (`useSparse` state
`false`), because the code compares the argument against the undocumented
literal `"y"`; the literal `"y"` selects sparse and `"auto"` on this small
dataset selects dense.  The claim that the documented options behave as
documented is violated by the code. -/
theorem C5_yes_selects_dense :
    (computeClusteringADP cEngine st3d 1 true "yes").1.stateUseSparse = some false ∧
    (computeClusteringADP cEngine st3d 1 true "yes").2 = none ∧
    (computeClusteringADP cEngine st3d 1 true "y").1.stateUseSparse = some true ∧
    (computeClusteringADP cEngine st3d 1 true "auto").1.stateUseSparse = some false ∧
    chooseSparse "yes" 3 = false ∧ chooseSparse "yes" 3000000 = false := by
  refine ⟨rfl, rfl, rfl, rfl, rfl, rfl⟩

/-- The density view of a point is untouched by the clustering stages: the
correction writes `log_rho_c` and `g`, Heuristic1 writes `cluster_idx` and
`is_center`, Heuristic3 rewrites `cluster_idx`. -/
theorem densityView_adpDp3 (e : Engine) (dp : ℕ → DatapointInfoM)
    (rows : List (List ℚ)) (n : ℕ) (Z : ℚ) (halo sparse : Bool) (i : ℕ) :
    densityView (adpDp3 e dp rows n Z halo sparse i) = densityView (dp i) := rfl

/-- C4: on a concrete three-point dataset with `k = 2`, the stored neighbor
lists have `k + 1 = 3` entries — self at rank 0 with distance 0, then the two
other points strictly ascending by (squared) distance — but `getNeighbors`
iterates only `range(self.k)` and returns per-point lists of length `k = 2`,
silently dropping the last (k-th nearest) stored neighbor instead of the full
list its docstring promises. -/
theorem C4_getNeighbors_truncates :
    st3n.k = some 2 ∧
    ((st3n.datapoints.getD noDatapoints) 0).ngbh = [⟨0, 0⟩, ⟨1, 1⟩, ⟨9, 2⟩] ∧
    ((st3n.datapoints.getD noDatapoints) 1).ngbh = [⟨0, 1⟩, ⟨1, 0⟩, ⟨4, 2⟩] ∧
    ((st3n.datapoints.getD noDatapoints) 2).ngbh = [⟨0, 2⟩, ⟨4, 1⟩, ⟨9, 0⟩] ∧
    (getNeighbors st3n).2 =
      Except.ok ([[0, 1], [1, 0], [2, 1]], [[0, 1], [0, 1], [0, 4]]) := by
  refine ⟨rfl, ?_, ?_, ?_, ?_⟩ <;>
    norm_num [st3n, st3, computeNeighbors, mkData, cEngine, specNgbhSearch, specNgbhHeap,
      candList, sqDist, rows3, getNeighbors, noDatapoints, initialGlobals, List.range_succ]

/-- C6: every stage with a precondition that fails it returns the object
unchanged (the check precedes all writes), and every stage that succeeds
leaves the fields computed by earlier successful stages untouched — including,
inside the datapoint array, the neighbor heaps (for `computeDensity`) and the
whole density view (for `computeClusteringADP`). -/
theorem C6_atomicity (e : Engine) (st : DataM) :
    ((computeIDtwoNN e st).2.isSome = true → (computeIDtwoNN e st).1 = st) ∧
    ((computeDensity e st).2.isSome = true → (computeDensity e st).1 = st) ∧
    (∀ (Z : ℚ) (halo : Bool) (us : String),
      (computeClusteringADP e st Z halo us).2.isSome = true →
      (computeClusteringADP e st Z halo us).1 = st) ∧
    (st.stateNgbh = true →
      (computeIDtwoNN e st).1.data = st.data ∧
      (computeIDtwoNN e st).1.k = st.k ∧
      (computeIDtwoNN e st).1.datapoints = st.datapoints ∧
      (computeIDtwoNN e st).1.neighbors = st.neighbors ∧
      (computeIDtwoNN e st).1.stateNgbh = true) ∧
    (st.stateId = true → ∀ dp, st.datapoints = some dp →
      (computeDensity e st).1.data = st.data ∧
      (computeDensity e st).1.k = st.k ∧
      (computeDensity e st).1.id = st.id ∧
      (computeDensity e st).1.neighbors = st.neighbors ∧
      (computeDensity e st).1.stateNgbh = st.stateNgbh ∧
      (computeDensity e st).1.stateId = true ∧
      ∃ dp2, (computeDensity e st).1.datapoints = some dp2 ∧
        ∀ i, (dp2 i).ngbh = (dp i).ngbh ∧ (dp2 i).array_idx = (dp i).array_idx) ∧
    (st.stateDensity = true → ∀ (Z : ℚ) (halo : Bool) (us : String) dp,
      st.datapoints = some dp →
      (computeClusteringADP e st Z halo us).1.data = st.data ∧
      (computeClusteringADP e st Z halo us).1.k = st.k ∧
      (computeClusteringADP e st Z halo us).1.id = st.id ∧
      (computeClusteringADP e st Z halo us).1.density = st.density ∧
      (computeClusteringADP e st Z halo us).1.densityError = st.densityError ∧
      (computeClusteringADP e st Z halo us).1.neighbors = st.neighbors ∧
      (computeClusteringADP e st Z halo us).1.stateNgbh = st.stateNgbh ∧
      (computeClusteringADP e st Z halo us).1.stateId = st.stateId ∧
      (computeClusteringADP e st Z halo us).1.stateDensity = true ∧
      ∃ dp2, (computeClusteringADP e st Z halo us).1.datapoints = some dp2 ∧
        ∀ i, densityView (dp2 i) = densityView (dp i)) := by
  refine ⟨?_, ?_, ?_, ?_, ?_, ?_⟩
  · intro h
    by_cases hs : st.stateNgbh
    · simp [computeIDtwoNN, hs] at h
    · simp [computeIDtwoNN, hs]
  · intro h
    by_cases hs : st.stateId
    · simp [computeDensity, hs] at h
    · simp [computeDensity, hs]
  · intro Z halo us h
    by_cases hs : st.stateDensity
    · simp [computeClusteringADP, hs] at h
    · simp [computeClusteringADP, hs]
  · intro h
    refine ⟨?_, ?_, ?_, ?_, ?_⟩ <;> simp [computeIDtwoNN, h]
  · intro h dp hdp
    refine ⟨?_, ?_, ?_, ?_, ?_, ?_,
      ⟨computeRhoM e dp (st.id.getD 0), ?_, fun i => ⟨rfl, rfl⟩⟩⟩ <;>
      simp [computeDensity, h, hdp]
  · intro h Z halo us dp hdp
    refine ⟨?_, ?_, ?_, ?_, ?_, ?_, ?_, ?_, ?_,
      ⟨adpDp3 e dp st.data st.n Z halo (chooseSparse us st.n), ?_,
       fun i => densityView_adpDp3 e dp st.data st.n Z halo (chooseSparse us st.n) i⟩⟩ <;>
      simp [computeClusteringADP, h, hdp]

/-- C6 (witness): the atomicity statement at concrete states — the fresh
object `st3` (where `computeIDtwoNN` fails and leaves the object intact) and
the density-ready object `st3d` (where clustering succeeds and preserves the
density view of every datapoint). -/
theorem C6_witness :
    (computeIDtwoNN cEngine st3).2.isSome = true ∧
    (computeIDtwoNN cEngine st3).1 = st3 ∧
    st3d.stateDensity = true ∧
    (computeClusteringADP cEngine st3d 1 true "auto").1.density = st3d.density ∧
    (∃ dp2, (computeClusteringADP cEngine st3d 1 true "auto").1.datapoints = some dp2 ∧
      ∀ i, densityView (dp2 i) = densityView ((st3d.datapoints.getD noDatapoints) i)) :=
  ⟨by decide, (C6_atomicity cEngine st3).1 (by decide), by decide,
   ((C6_atomicity cEngine st3d).2.2.2.2.2 (by decide) 1 true "auto"
     (st3d.datapoints.getD noDatapoints) rfl).2.2.2.1,
   ((C6_atomicity cEngine st3d).2.2.2.2.2 (by decide) 1 true "auto"
     (st3d.datapoints.getD noDatapoints) rfl).2.2.2.2.2.2.2.2.2⟩

/-- C7: the precision and index-width choices are fixed at construction and
never change across any call made through an instance (part one: every
operation preserves `typesOf`), and when two coexisting instances are built
over the same shared library (hence reading the same size code `s`) each one's
bound argtypes agree with its own recorded choice, starting from the module's
initial globals (part two). -/
theorem C7_types_fixed (e : Engine) (st : DataM) (kArg : ℕ) (Z : ℚ) (halo : Bool)
    (us : String) (g0 : Globals) (s1 s2 : ℤ) (rows1 rows2 : List (List ℚ))
    (d1 d2 : ℕ) (h0 : g0 = initialGlobals) (hs : s1 = s2) :
    typesOf (computeNeighbors e st kArg).1 = typesOf st ∧
    typesOf (computeIDtwoNN e st).1 = typesOf st ∧
    typesOf (computeDensity e st).1 = typesOf st ∧
    typesOf (computeClusteringADP e st Z halo us).1 = typesOf st ∧
    typesOf (getClusterAssignment st).1 = typesOf st ∧
    typesOf (getDensity st).1 = typesOf st ∧
    typesOf (getDensityError st).1 = typesOf st ∧
    typesOf (getNeighbors st).1 = typesOf st ∧
    ((mkData g0 s1 rows1 d1).2.argFloat = (mkData g0 s1 rows1 d1).2.dtypeFloat ∧
     (mkData g0 s1 rows1 d1).2.argIdx =
       (if (mkData g0 s1 rows1 d1).2.useInt32 then CIdxT.c_uint32 else CIdxT.c_uint64)) ∧
    ((mkData (mkData g0 s1 rows1 d1).1 s2 rows2 d2).2.argFloat =
       (mkData (mkData g0 s1 rows1 d1).1 s2 rows2 d2).2.dtypeFloat ∧
     (mkData (mkData g0 s1 rows1 d1).1 s2 rows2 d2).2.argIdx =
       (if (mkData (mkData g0 s1 rows1 d1).1 s2 rows2 d2).2.useInt32
        then CIdxT.c_uint32 else CIdxT.c_uint64)) := by
  subst h0 hs
  refine ⟨rfl, ?_, ?_, ?_, ?_, ?_, ?_, ?_, ?_, ?_⟩
  · by_cases h : st.stateNgbh <;> simp [computeIDtwoNN, typesOf, h]
  · by_cases h : st.stateId <;> simp [computeDensity, typesOf, h]
  · by_cases h : st.stateDensity <;> simp [computeClusteringADP, typesOf, h]
  · cases hca : st.clusterAssignment <;> by_cases hc : st.stateClustering <;>
      simp [getClusterAssignment, hca, hc, typesOf]
  · cases hd : st.density <;> by_cases hc : st.stateDensity <;>
      simp [getDensity, hd, hc, typesOf]
  · cases hd : st.densityError <;> by_cases hc : st.stateDensity <;>
      simp [getDensityError, hd, hc, typesOf]
  · cases hd : st.neighbors <;> by_cases hc : st.stateNgbh <;>
      simp [getNeighbors, hd, hc, typesOf]
  · by_cases h1 : s1 < 1 <;> by_cases h2 : s1 = 0 ∨ s1 = 2 <;>
      simp [mkData, initialGlobals, h1, h2]
  · by_cases h1 : s1 < 1 <;> by_cases h2 : s1 = 0 ∨ s1 = 2 <;>
      simp [mkData, initialGlobals, h1, h2]

/-- Corrected-view congruence: the correction stage reads only the density
view, so two datapoint arrays agreeing on density views produce the same
corrected views. -/
theorem corrView_congr (e : Engine) (p q : ℕ → DatapointInfoM) (Z : ℚ)
    (h : ∀ i, densityView (p i) = densityView (q i)) (j : ℕ) :
    corrView (computeCorrectionM e p Z j) = corrView (computeCorrectionM e q Z j) := by
  have hng := congrArg DpDensityView.ngbh (h j)
  have hai := congrArg DpDensityView.array_idx (h j)
  have hlr := congrArg DpDensityView.log_rho (h j)
  have hle := congrArg DpDensityView.log_rho_err (h j)
  have hks := congrArg DpDensityView.kstar (h j)
  simp only [densityView] at hng hai hlr hle hks
  simp only [computeCorrectionM, corrView, h j, hng, hai, hlr, hle, hks]

/-- Two records that agree on the corrected view and get the same cluster
label and center flag are equal. -/
theorem dp_eq_of_corrView (x y : DatapointInfoM) (hc : corrView x = corrView y)
    (a : ℤ) (b : Bool) :
    ({ x with cluster_idx := a, is_center := b } : DatapointInfoM) =
      { y with cluster_idx := a, is_center := b } := by
  cases x
  cases y
  simp only [corrView, DpCorrView.mk.injEq] at hc
  simp [hc.1, hc.2.1, hc.2.2.1, hc.2.2.2.1, hc.2.2.2.2.1, hc.2.2.2.2.2.1, hc.2.2.2.2.2.2]

/-- The clustering pipeline is a function of the density views alone: two
input arrays with equal density views give the same final datapoint array and
the same final clusters. -/
theorem adp_congr (e : Engine) (p q : ℕ → DatapointInfoM) (rows : List (List ℚ))
    (n : ℕ) (Z : ℚ) (halo sparse : Bool)
    (h : ∀ i, densityView (p i) = densityView (q i)) :
    adpDp3 e p rows n Z halo sparse = adpDp3 e q rows n Z halo sparse ∧
    adpClFinal e p rows n Z halo sparse = adpClFinal e q rows n Z halo sparse := by
  have hcv : (fun j => corrView (computeCorrectionM e p Z j)) =
      (fun j => corrView (computeCorrectionM e q Z j)) :=
    funext fun j => corrView_congr e p q Z h j
  have hdp2 : adpDp2 e p rows n Z = adpDp2 e q rows n Z := by
    funext i
    simp only [adpDp2, h1M]
    rw [hcv]
    exact dp_eq_of_corrView _ _ (corrView_congr e p q Z h i) _ _
  have hcl0 : (h1M e (computeCorrectionM e p Z) rows n).2 =
      (h1M e (computeCorrectionM e q Z) rows n).2 := by
    simp only [h1M]
    rw [hcv]
  have hcl : adpCl e p rows n Z sparse = adpCl e q rows n Z sparse := by
    simp only [adpCl]
    rw [hdp2, hcl0]
  constructor
  · funext i
    simp only [adpDp3, h3M]
    rw [hdp2, hcl]
  · simp only [adpClFinal]
    rw [hdp2, hcl]

/-- C8: re-running `computeClusteringADP` on the same object with the same
`Z`, halo and sparse arguments is idempotent: the second run reads the same
density views (which the first run did not alter), so `getClusterAssignment`
returns literally the same cluster ids — in particular the same partition —
and no earlier stage is re-run (the second call touches only clustering
state). -/
theorem C8_idempotent (e : Engine) (st : DataM) (Z : ℚ) (halo : Bool) (us : String) :
    (getClusterAssignment
        (computeClusteringADP e (computeClusteringADP e st Z halo us).1 Z halo us).1).2 =
      (getClusterAssignment (computeClusteringADP e st Z halo us).1).2 ∧
    (computeClusteringADP e (computeClusteringADP e st Z halo us).1 Z halo us).1.clusters =
      (computeClusteringADP e st Z halo us).1.clusters := by
  by_cases h : st.stateDensity
  · have key := adp_congr e
      (adpDp3 e (st.datapoints.getD noDatapoints) st.data st.n Z halo (chooseSparse us st.n))
      (st.datapoints.getD noDatapoints) st.data st.n Z halo (chooseSparse us st.n)
      (fun i => densityView_adpDp3 e (st.datapoints.getD noDatapoints) st.data st.n Z halo
        (chooseSparse us st.n) i)
    simp only [computeClusteringADP, h, Bool.not_true, Bool.false_eq_true, if_false,
      Option.getD_some, getClusterAssignment]
    simp [key.1, key.2]
  · simp [computeClusteringADP, h]

/-- C7 (witness): the statement instantiated on a concrete 64-bit/64-bit
library (`s = 1`) with two coexisting instances over `rows3`. -/
theorem C7_witness :
    initialGlobals = initialGlobals ∧ (1 : ℤ) = 1 ∧
    typesOf (computeNeighbors cEngine st3 2).1 = typesOf st3 ∧
    (mkData (mkData initialGlobals 1 rows3 2).1 1 rows3 2).2.argFloat =
      (mkData (mkData initialGlobals 1 rows3 2).1 1 rows3 2).2.dtypeFloat :=
  ⟨rfl, rfl,
   (C7_types_fixed cEngine st3 2 1 true "auto" initialGlobals 1 1 rows3 rows3 2 2
     rfl rfl).1,
   ((C7_types_fixed cEngine st3 2 1 true "auto" initialGlobals 1 1 rows3 rows3 2 2
     rfl rfl).2.2.2.2.2.2.2.2.2).1⟩

/-- A squared Euclidean distance is nonnegative. -/
theorem sqDist_nonneg (x y : List ℚ) : 0 ≤ sqDist x y := by
  unfold sqDist
  apply List.sum_nonneg
  intro a ha
  obtain ⟨p, _, rfl⟩ := List.mem_map.mp ha
  exact mul_self_nonneg _

/-- The squared distance from a point to itself is zero. -/
theorem sqDist_self (x : List ℚ) : sqDist x x = 0 := by
  induction x with
  | nil => rfl
  | cons a t ih =>
    simp only [sqDist, List.zip_cons_cons, List.map_cons, List.sum_cons, sub_self, mul_zero,
      zero_add] at ih ⊢
    exact ih

/-- Every candidate pair records the squared distance from point `j` to the
point whose index it carries. -/
theorem candList_mem_value (rows : List (List ℚ)) (j : ℕ) :
    ∀ p ∈ candList rows j, p.1 = sqDist (rows.getD j []) (rows.getD p.2 []) := by
  intro p hp
  unfold candList at hp
  have hp2 := (List.Perm.mem_iff (List.perm_insertionSort _ _)).mp hp
  obtain ⟨x, _, rfl⟩ := List.mem_map.mp hp2
  rfl

/-- For a valid point index `j` there are exactly `n - 1` candidates. -/
theorem candList_length (rows : List (List ℚ)) (j : ℕ) (hj : j < rows.length) :
    (candList rows j).length = rows.length - 1 := by
  unfold candList
  rw [List.length_insertionSort, List.length_map]
  have h1 : ((List.range rows.length).filter fun x => x ≠ j) =
      (List.range rows.length).erase j := by
    rw [List.Nodup.erase_eq_filter (List.nodup_range _) j]
    apply List.filter_congr
    intro x _
    by_cases hx : x = j <;> simp [hx, bne]
  rw [h1]
  have h2 := List.length_erase_add_one (List.mem_range.mpr hj)
  rw [List.length_range] at h2
  omega

/-- C9: `getNeighbors` exposes, entry by entry, the values stored in the
neighbor heaps (the Python code returns `value ** 0.5` for each such value),
and with the spec-modelled storage every stored value is the squared
Euclidean distance to the neighbor it names — so the square root of each
exposed value (a nonnegative number whose square is the stored value) is the
actual Euclidean distance. -/
theorem C9_sqrt_distances (rows : List (List ℚ)) (kArg : ℕ) (st : DataM) (j kk : ℕ)
    (hne : st.neighbors = none) (hflag : st.stateNgbh = true) (hk : st.k = some kArg)
    (hdp : st.datapoints = some (specNgbhSearch rows st.n st.dims kArg))
    (hj : j < rows.length) (hkk : kk < kArg + 1) (hkn : kArg < rows.length) :
    (getNeighbors st).2 = Except.ok
      ((List.range st.n).map fun a => (List.range kArg).map fun b =>
          ((specNgbhSearch rows st.n st.dims kArg a).ngbh.getD b default).array_idx,
       (List.range st.n).map fun a => (List.range kArg).map fun b =>
          ((specNgbhSearch rows st.n st.dims kArg a).ngbh.getD b default).value) ∧
    ((specNgbhSearch rows st.n st.dims kArg j).ngbh.getD kk default).value =
      sqDist (rows.getD j [])
        (rows.getD (((specNgbhSearch rows st.n st.dims kArg j).ngbh.getD kk default).array_idx)
          []) ∧
    Real.sqrt (((specNgbhSearch rows st.n st.dims kArg j).ngbh.getD kk default).value : ℝ) *
        Real.sqrt (((specNgbhSearch rows st.n st.dims kArg j).ngbh.getD kk default).value : ℝ) =
      (((specNgbhSearch rows st.n st.dims kArg j).ngbh.getD kk default).value : ℝ) ∧
    0 ≤ Real.sqrt (((specNgbhSearch rows st.n st.dims kArg j).ngbh.getD kk default).value : ℝ) := by
  have hval : ((specNgbhSearch rows st.n st.dims kArg j).ngbh.getD kk default).value =
      sqDist (rows.getD j [])
        (rows.getD (((specNgbhSearch rows st.n st.dims kArg j).ngbh.getD kk default).array_idx)
          []) := by
    simp only [specNgbhSearch, specNgbhHeap]
    cases kk with
    | zero =>
      simp [sqDist_self]
    | succ m =>
      have hm : m < kArg := by omega
      have hcl : (candList rows j).length = rows.length - 1 := candList_length rows j hj
      have hlen : m <
          ((((candList rows j).take kArg).map fun p => HeapNodeM.mk p.1 p.2).length) := by
        rw [List.length_map, List.length_take, hcl]
        omega
      have hcand : m < (candList rows j).length := by
        rw [hcl]
        omega
      rw [List.getD_cons_succ, List.getD_eq_getElem _ _ hlen]
      rw [List.getElem_map]
      rw [List.getElem_take]
      exact candList_mem_value rows j _ (List.getElem_mem _)
  have hnn : (0 : ℝ) ≤
      (((specNgbhSearch rows st.n st.dims kArg j).ngbh.getD kk default).value : ℝ) := by
    rw [hval]
    exact_mod_cast sqDist_nonneg _ _
  refine ⟨?_, hval, Real.mul_self_sqrt hnn, Real.sqrt_nonneg _⟩
  simp only [getNeighbors, hne, hflag, hk, hdp, Option.getD_some, if_true]

/-- C9 (witness): the statement at the concrete three-point dataset, point 0,
heap rank 2 (whose stored value 9 is the squared distance to point 2). -/
theorem C9_witness :
    st3n.neighbors = none ∧ (0 < rows3.length ∧ 2 < 2 + 1 ∧ 2 < rows3.length) ∧
    ((specNgbhSearch rows3 st3n.n st3n.dims 2 0).ngbh.getD 2 default).value =
      sqDist (rows3.getD 0 [])
        (rows3.getD (((specNgbhSearch rows3 st3n.n st3n.dims 2 0).ngbh.getD 2
          default).array_idx) []) :=
  ⟨rfl, ⟨by decide, by decide, by decide⟩,
   (C9_sqrt_distances rows3 2 st3n 0 2 rfl rfl rfl rfl (by decide) (by decide)
     (by decide)).2.1⟩

/-- C10: each getter returns the cache unchanged when it is set; on a first
call with the stage flag set it computes the value from the current datapoint
array, stores it in the cache and returns it; each compute stage clears the
caches of exactly the outputs it (re)produces; and two consecutive calls of
the same getter with no intervening compute return equal results. -/
theorem C10_caching (e : Engine) (st : DataM) (kArg : ℕ) (Z : ℚ) (halo : Bool)
    (us : String) :
    (∀ v, st.clusterAssignment = some v → getClusterAssignment st = (st, Except.ok v)) ∧
    (∀ v, st.density = some v → getDensity st = (st, Except.ok v)) ∧
    (∀ v, st.densityError = some v → getDensityError st = (st, Except.ok v)) ∧
    (∀ v, st.neighbors = some v → getNeighbors st = (st, Except.ok v)) ∧
    (st.clusterAssignment = none → st.stateClustering = true →
      (getClusterAssignment st).1.clusterAssignment =
        some ((List.range st.n).map fun j => ((st.datapoints.getD noDatapoints) j).cluster_idx) ∧
      (getClusterAssignment st).2 =
        Except.ok ((List.range st.n).map fun j =>
          ((st.datapoints.getD noDatapoints) j).cluster_idx)) ∧
    (st.density = none → st.stateDensity = true →
      (getDensity st).1.density =
        some ((List.range st.n).map fun j => ((st.datapoints.getD noDatapoints) j).log_rho) ∧
      (getDensity st).2 =
        Except.ok ((List.range st.n).map fun j =>
          ((st.datapoints.getD noDatapoints) j).log_rho)) ∧
    (st.densityError = none → st.stateDensity = true →
      (getDensityError st).1.densityError =
        some ((List.range st.n).map fun j =>
          ((st.datapoints.getD noDatapoints) j).log_rho_err) ∧
      (getDensityError st).2 =
        Except.ok ((List.range st.n).map fun j =>
          ((st.datapoints.getD noDatapoints) j).log_rho_err)) ∧
    ((computeNeighbors e st kArg).1.neighbors = none) ∧
    (st.stateId = true →
      (computeDensity e st).1.density = none ∧
      (computeDensity e st).1.densityError = none) ∧
    (st.stateDensity = true →
      (computeClusteringADP e st Z halo us).1.clusterAssignment = none) ∧
    ((getClusterAssignment (getClusterAssignment st).1).2 = (getClusterAssignment st).2) ∧
    ((getDensity (getDensity st).1).2 = (getDensity st).2) ∧
    ((getDensityError (getDensityError st).1).2 = (getDensityError st).2) ∧
    ((getNeighbors (getNeighbors st).1).2 = (getNeighbors st).2) := by
  refine ⟨fun v hv => ?_, fun v hv => ?_, fun v hv => ?_, fun v hv => ?_,
    fun hc hf => ?_, fun hc hf => ?_, fun hc hf => ?_, rfl, fun hf => ?_, fun hf => ?_,
    ?_, ?_, ?_, ?_⟩
  · simp [getClusterAssignment, hv]
  · simp [getDensity, hv]
  · simp [getDensityError, hv]
  · simp [getNeighbors, hv]
  · simp [getClusterAssignment, hc, hf]
  · simp [getDensity, hc, hf]
  · simp [getDensityError, hc, hf]
  · simp [computeDensity, hf]
  · simp [computeClusteringADP, hf]
  · cases hc : st.clusterAssignment with
    | some v => simp [getClusterAssignment, hc]
    | none =>
      by_cases hf : st.stateClustering <;> simp [getClusterAssignment, hc, hf]
  · cases hc : st.density with
    | some v => simp [getDensity, hc]
    | none =>
      by_cases hf : st.stateDensity <;> simp [getDensity, hc, hf]
  · cases hc : st.densityError with
    | some v => simp [getDensityError, hc]
    | none =>
      by_cases hf : st.stateDensity <;> simp [getDensityError, hc, hf]
  · cases hc : st.neighbors with
    | some v => simp [getNeighbors, hc]
    | none =>
      by_cases hf : st.stateNgbh <;> simp [getNeighbors, hc, hf]

/-- C10 (witness): the caching behaviour at the concrete density-ready state:
the density cache is empty, a first `getDensity` call computes and caches the
log-densities of the current datapoints, a fresh `computeDensity` clears the
cache again, and two consecutive calls agree. -/
theorem C10_witness :
    st3d.density = none ∧ st3d.stateDensity = true ∧ st3d.stateId = true ∧
    ((getDensity st3d).1.density =
      some ((List.range st3d.n).map fun j =>
        ((st3d.datapoints.getD noDatapoints) j).log_rho) ∧
     (getDensity st3d).2 =
      Except.ok ((List.range st3d.n).map fun j =>
        ((st3d.datapoints.getD noDatapoints) j).log_rho)) ∧
    ((computeDensity cEngine st3d).1.density = none ∧
     (computeDensity cEngine st3d).1.densityError = none) ∧
    (getDensity (getDensity st3d).1).2 = (getDensity st3d).2 :=
  ⟨rfl, by decide, by decide,
   (C10_caching cEngine st3d 2 1 true "auto").2.2.2.2.2.1 rfl (by decide),
   (C10_caching cEngine st3d 2 1 true "auto").2.2.2.2.2.2.2.2.1 (by decide),
   (C10_caching cEngine st3d 2 1 true "auto").2.2.2.2.2.2.2.2.2.2.2.1⟩

end DadaC
